import Mathlib

/-!
Verification of the audio spoof detection pipeline (app/audio_spoof_api.py).

The development shallowly embeds the pure computational core of the service:

* `classify_audio` together with its score components embeds the rule-based
  classifier (lines 89-104 of the source).
* `zcrF`, `spectral_centroidF`, `spectral_flatnessF` and `energy_stdF` embed
  the four feature computations of `extract_audio_features` (lines 46-87).
  Machine floats are modelled as real numbers; the numpy NaN produced by the
  mean of an empty array is modelled by `Option ℝ` with `none` standing for
  NaN (`npMean`).
* `extractAudioFeatures` embeds the fallible extraction step as `Except`:
  the only exception site reachable from a real-valued signal is
  `np.fft.fft` on a zero-length input, which raises a ValueError.
* `pipelineMonoSignal` embeds the stereo-to-mono downmix of
  `process_base64_audio` (lines 174-176) followed by the first-row selection
  of `extract_audio_features` (lines 52-53).
* `detect_spoof` embeds the request dispatch of the `/detect` handler
  (lines 212-260): API-key check, declared-format validation, then the
  decode-and-classify call, which is passed as a function argument so that
  the proofs can express that the decode step is not invoked on rejection.
* `processTempFile` embeds the temporary-file lifecycle of
  `process_base64_audio` (lines 153-190) as a function from the point of
  failure to the raised/file-exists outcome, with the except-handler of
  lines 188-189 modelled by `exceptHandler`.
-/

/-! ## Computable parts of the embedding (no real-number arithmetic) -/

/-- Embeds `VALID_API_KEY` (line 26 of the source). -/
def VALID_API_KEY : String := "your-secret-api-key-here"

/-- Embeds `verify_api_key` (lines 121-123): the optional `X-API-Key` header
compares equal to the configured secret; a missing header compares false. -/
def verify_api_key (apiKey : Option String) : Bool :=
  apiKey == some VALID_API_KEY

/-- Embeds `supported_formats` (line 223). -/
def supported_formats : List String := ["mp3", "wav", "m4a", "ogg", "flac", "aac"]

/-- Embeds the Python `str.lower()` call of line 224: lower-case each
character (the supported format names are plain ASCII). -/
def strLower (s : String) : String := ⟨s.data.map Char.toLower⟩

/-- Number of elements of the Python iteration `range(0, stop, step)` for a
positive `step` and an integer `stop` (the source computes the stop value as
`len(signal) - frame_length`, which can be negative). -/
def pyRangeCount (stop : ℤ) (step : ℕ) : ℕ :=
  if 0 < stop then (stop - 1).toNat / step + 1 else 0

/-- The Python iteration `range(0, stop, step)` for a positive `step`:
the multiples of `step` that are smaller than `stop`. -/
def pyRange (stop : ℤ) (step : ℕ) : List ℕ :=
  (List.range (pyRangeCount stop step)).map (· * step)

/-- Points at which `process_base64_audio` (lines 153-190) can raise, plus
the no-failure case.  Failures after the success-path unlink at line 166
(resampling, feature extraction, classification) are all represented by
`extractFail` since they share the same file-system state. -/
inductive FailPoint where
  | noFail
  | b64decodeFail
  | createFail
  | writeFail
  | loadFail
  | extractFail
deriving DecidableEq

/-- Observable outcome of one run of `process_base64_audio`: whether the
call raised, and whether the temporary file is still on disk afterwards. -/
structure TempFileTrace where
  raised : Bool
  tempFileExists : Bool
deriving DecidableEq

/-- Embeds the except-handler of lines 186-190: the file is unlinked only
when the local variable `temp_path` is bound and the file exists; the
function returns whether the file exists after the handler ran. -/
def exceptHandler (tempPathBound fileExists : Bool) : Bool :=
  if tempPathBound && fileExists then false else fileExists

/-- Embeds the temporary-file lifecycle of `process_base64_audio` as a
function of the failure point.  Line-by-line correspondence:

* `base64.b64decode` (line 155) runs before any file is created.
* `tempfile.NamedTemporaryFile(delete=False, ...)` (line 158): a failure
  while creating leaves no file; on success the file now exists on disk.
* `temp_file.write(audio_bytes)` (line 159) runs before the assignment
  `temp_path = temp_file.name` (line 160), so when the write raises the
  handler sees `temp_path` unbound and the created file survives.
* `torchaudio.load(temp_path)` (line 163) runs with `temp_path` bound and
  the file on disk.
* `os.unlink(temp_path)` (line 166) deletes the file on the success path;
  any later failure reaches the handler with the file already gone. -/
def processTempFile (fp : FailPoint) : TempFileTrace :=
  if fp = .b64decodeFail then { raised := true, tempFileExists := exceptHandler false false }
  else if fp = .createFail then { raised := true, tempFileExists := exceptHandler false false }
  else if fp = .writeFail then { raised := true, tempFileExists := exceptHandler false true }
  else if fp = .loadFail then { raised := true, tempFileExists := exceptHandler true true }
  else if fp = .extractFail then { raised := true, tempFileExists := exceptHandler true false }
  else { raised := false, tempFileExists := false }

/-! ## Real-valued embedding of the feature extractor and classifier -/

noncomputable section

/-- Feature vector consumed by `classify_audio` (the dict built at lines
79-84, restricted to finite values as the classifier claims assume). -/
structure FeatureVec where
  zcr : ℝ
  spectral_centroid : ℝ
  spectral_flatness : ℝ
  energy_std : ℝ

/-- Embeds `zcr_score = min(the zcr entry / 0.5, 1.0)` (line 91). -/
def zcr_score (f : FeatureVec) : ℝ := min (f.zcr / 0.5) 1.0

/-- Embeds `spectral_score = 1.0 - min(the spectral_flatness entry, 1.0)`
(line 92). -/
def spectral_score (f : FeatureVec) : ℝ := 1.0 - min f.spectral_flatness 1.0

/-- Embeds `energy_score = 1.0 - min(the energy_std entry / 10000, 1.0)`
(line 93). -/
def energy_score (f : FeatureVec) : ℝ := 1.0 - min (f.energy_std / 10000) 1.0

/-- Embeds `ai_score = zcr_score * 0.3 + spectral_score * 0.4 +
energy_score * 0.3` (line 95). -/
def ai_score (f : FeatureVec) : ℝ :=
  zcr_score f * 0.3 + spectral_score f * 0.4 + energy_score f * 0.3

/-- Embeds `classify_audio` (lines 89-104): threshold the weighted score at
0.6 and cap the reported confidence at 0.95. -/
def classify_audio (f : FeatureVec) : String × ℝ :=
  if ai_score f > 0.6 then ("AI_GENERATED", min (ai_score f) 0.95)
  else ("HUMAN", min (1.0 - ai_score f) 0.95)

end

/-! ## Embedding of `extract_audio_features` (lines 46-87)

The numpy float NaN is modelled by `Option ℝ`: `none` is NaN.  The only
NaN source reachable from a real-valued input signal is `np.mean` applied
to an empty array (numpy returns NaN with a warning, it does not raise),
which happens for the zero-crossing rate of a signal with fewer than two
samples and for the spectral flatness of a signal with fewer than two
samples (empty half-spectrum).  All other operations stay real-valued. -/

noncomputable section

/-- Embeds `np.sign` on a float: 1 for positive, -1 for negative, 0 for 0. -/
def npSign (x : ℝ) : ℝ := if x > 0 then 1 else if x < 0 then -1 else 0

/-- Embeds `np.diff`: successive differences, one element shorter. -/
def diffList (l : List ℝ) : List ℝ := List.zipWith (fun a b => b - a) l l.tail

/-- Embeds `np.mean`: the arithmetic mean, which is NaN (`none`) on an
empty array. -/
def npMean (l : List ℝ) : Option ℝ :=
  if l.isEmpty then none else some (l.sum / l.length)

/-- Embeds line 56: `zcr = np.mean(np.abs(np.diff(np.sign(signal))))`. -/
def zcrF (signal : List ℝ) : Option ℝ :=
  npMean ((diffList (signal.map npSign)).map (fun d => |d|))

/-- Embeds `np.fft.fft(signal)` at index `k`: the discrete Fourier
transform `A_k = sum_j a_j * exp(-2*pi*I*j*k/n)` (line 59). -/
def dft (signal : List ℝ) (k : ℕ) : ℂ :=
  ∑ j ∈ Finset.range signal.length,
    (signal.getD j 0 : ℂ) *
      Complex.exp (-2 * Real.pi * Complex.I * j * k / signal.length)

/-- Embeds line 60: `magnitude = np.abs(fft[:len(fft)//2])`. -/
def magnitudes (signal : List ℝ) : List ℝ :=
  (List.range (signal.length / 2)).map (fun k => Complex.abs (dft signal k))

/-- Embeds lines 61-62: `freqs = np.fft.fftfreq(len(signal), 1/sr)[:len(fft)//2]`
has entry `k * sr / n` at index `k`, and
`spectral_centroid = np.sum(freqs * magnitude) / (np.sum(magnitude) + 1e-10)`. -/
def spectral_centroidF (signal : List ℝ) (sr : ℕ) : ℝ :=
  ((List.range (signal.length / 2)).map
      (fun (k : ℕ) => ((k : ℝ) * sr / signal.length) * Complex.abs (dft signal k))).sum
    / ((magnitudes signal).sum + 1e-10)

/-- Embeds line 65:
`spectral_flatness = np.exp(np.mean(np.log(magnitude + 1e-10))) / (np.mean(magnitude) + 1e-10)`.
Both means are over the same array, so both are NaN exactly when the
half-spectrum is empty; numpy then yields NaN for the quotient. -/
def spectral_flatnessF (signal : List ℝ) : Option ℝ :=
  match npMean ((magnitudes signal).map (fun m => Real.log (m + 1e-10))),
      npMean (magnitudes signal) with
  | some gm, some am => some (Real.exp gm / (am + 1e-10))
  | _, _ => none

/-- Embeds line 68: `frame_length = int(0.025 * sr)`, exact for the fixed
pipeline rate 16000 (giving 400). -/
def frameLength (sr : ℕ) : ℕ := sr / 40

/-- Embeds line 69: `hop_length = int(0.010 * sr)`, exact for the fixed
pipeline rate 16000 (giving 160). -/
def hopLength (sr : ℕ) : ℕ := sr / 100

/-- Embeds line 74: `energy = np.sum(frame ** 2)` for the frame
`signal[i:i+frame_length]` (line 73). -/
def frameEnergy (signal : List ℝ) (i fl : ℕ) : ℝ :=
  (((signal.drop i).take fl).map (fun x => x ^ 2)).sum

/-- Embeds the loop of lines 71-75:
`for i in range(0, len(signal) - frame_length, hop_length)` collecting the
per-frame energies. -/
def energyVariations (signal : List ℝ) (sr : ℕ) : List ℝ :=
  (pyRange ((signal.length : ℤ) - (frameLength sr : ℕ)) (hopLength sr)).map
    (fun i => frameEnergy signal i (frameLength sr))

/-- Embeds `np.std`: the population standard deviation, the square root of
the mean squared deviation from the mean. -/
def npStd (l : List ℝ) : ℝ :=
  Real.sqrt ((l.map (fun x => (x - l.sum / l.length) ^ 2)).sum / l.length)

/-- Embeds line 77:
`energy_std = np.std(energy_variations) if len(energy_variations) > 0 else 0`. -/
def energy_stdF (signal : List ℝ) (sr : ℕ) : ℝ :=
  if (energyVariations signal sr).isEmpty then 0
  else npStd (energyVariations signal sr)

/-- Errors of the embedded pipeline.  `fftZeroPoints` is the ValueError
numpy raises for `np.fft.fft` on an empty array (the only exception site of
`extract_audio_features` reachable from a real-valued signal).
`emptySignal` is declared so that the specified distinct empty-signal error
kind is expressible; the source never raises it (no such class exists in
the repository). -/
inductive PipeError where
  | fftZeroPoints
  | emptySignal
deriving DecidableEq

/-- Feature vector as produced by `extract_audio_features` (lines 79-84),
with possibly-NaN zero-crossing rate and spectral flatness. -/
structure FeatureVecN where
  zcr : Option ℝ
  spectral_centroid : ℝ
  spectral_flatness : Option ℝ
  energy_std : ℝ

/-- Embeds `extract_audio_features` (lines 46-87) as a fallible function.
The zero-crossing rate of line 56 is computed first and never raises (NaN
is a value, not an exception); `np.fft.fft` at line 59 raises ValueError
when the signal is empty; everything afterwards is total.  The
`try/except` of the source logs and re-raises, so the exception escapes. -/
def extractAudioFeatures (signal : List ℝ) (sr : ℕ) : Except PipeError FeatureVecN :=
  if signal.length = 0 then .error .fftZeroPoints
  else .ok ⟨zcrF signal, spectral_centroidF signal sr,
    spectral_flatnessF signal, energy_stdF signal sr⟩

/-- Embeds the pipeline of `process_base64_audio` from the decoded mono
signal onwards (resampling left behind: the claims below apply it to
signals already at the 16 kHz target): feature extraction at the fixed
rate, re-raising any exception. -/
def processDecodedSignal (signal : List ℝ) : Except PipeError FeatureVecN :=
  extractAudioFeatures signal 16000

/-- Embeds `torch.mean(signal, dim=0, keepdim=True)` (line 176) on a
rectangular channels-by-samples buffer: the arithmetic mean across
channels at each sample index, keeping the channel dimension. -/
def torchMeanDim0 (channels : List (List ℝ)) : List ℝ :=
  (List.range (channels.headD []).length).map
    (fun j => (channels.map (fun ch => ch.getD j 0)).sum / channels.length)

/-- Embeds lines 174-176: `if signal.shape[0] > 1: signal = torch.mean(signal, dim=0, keepdim=True)`. -/
def convertToMono (channels : List (List ℝ)) : List (List ℝ) :=
  if 1 < channels.length then [torchMeanDim0 channels] else channels

/-- The mono signal the feature extractor works on: the downmix of lines
174-176 followed by the first-row selection `signal = signal[0]` of lines
52-53. -/
def pipelineMonoSignal (channels : List (List ℝ)) : List ℝ :=
  (convertToMono channels).headD []

/-- Possible outcomes of the `/detect` handler, as visible to the client:
a success payload or an HTTP error status. -/
inductive DetectOutcome where
  | success (classification : String) (confidence : ℝ)
  | errorResponse (statusCode : ℕ)

/-- Embeds the dispatch of `detect_spoof` (lines 192-260): the API-key
check answers 401 (lines 213-220), then the declared-format validation
answers 400 (lines 222-231), and only then is the decode-and-classify call
`process_base64_audio` run (lines 233-250), any exception answering 500
(lines 252-260).  The decode call is a function argument so that theorems
can quantify over it. -/
def detect_spoof (apiKey : Option String) (audioFormat : String)
    (decodeRun : Unit → Except PipeError (String × ℝ)) : DetectOutcome :=
  if !verify_api_key apiKey then .errorResponse 401
  else if !(supported_formats.contains (strLower audioFormat)) then .errorResponse 400
  else
    match decodeRun () with
    | .ok (classification, confidence) => .success classification confidence
    | .error _ => .errorResponse 500

end

/-! ## Classifier claims -/

/-- Claim C1: for every feature vector of finite real values the classifier
computes the three component scores and the weighted `ai_score` exactly as
specified, returning label AI_GENERATED with confidence `min(ai_score, 0.95)`
when `ai_score > 0.6` (strict), and otherwise -- including a tie at exactly
0.6 -- label HUMAN with confidence `min(1.0 - ai_score, 0.95)`. -/
theorem claim1_classifier_rule (f : FeatureVec) :
    (0.3 * min (f.zcr / 0.5) 1.0 + 0.4 * (1.0 - min f.spectral_flatness 1.0)
        + 0.3 * (1.0 - min (f.energy_std / 10000) 1.0) > 0.6 →
      classify_audio f = ("AI_GENERATED",
        min (0.3 * min (f.zcr / 0.5) 1.0 + 0.4 * (1.0 - min f.spectral_flatness 1.0)
          + 0.3 * (1.0 - min (f.energy_std / 10000) 1.0)) 0.95)) ∧
    (0.3 * min (f.zcr / 0.5) 1.0 + 0.4 * (1.0 - min f.spectral_flatness 1.0)
        + 0.3 * (1.0 - min (f.energy_std / 10000) 1.0) ≤ 0.6 →
      classify_audio f = ("HUMAN",
        min (1.0 - (0.3 * min (f.zcr / 0.5) 1.0 + 0.4 * (1.0 - min f.spectral_flatness 1.0)
          + 0.3 * (1.0 - min (f.energy_std / 10000) 1.0))) 0.95)) := by
  have hai : ai_score f = 0.3 * min (f.zcr / 0.5) 1.0
      + 0.4 * (1.0 - min f.spectral_flatness 1.0)
      + 0.3 * (1.0 - min (f.energy_std / 10000) 1.0) := by
    unfold ai_score zcr_score spectral_score energy_score; ring
  constructor
  · intro h
    unfold classify_audio
    rw [hai, if_pos h]
  · intro h
    unfold classify_audio
    rw [hai, if_neg (not_lt.mpr h)]

/-- Witness for C1 at the concrete feature vector (1, 0, 0, 0). -/
theorem claim1_classifier_rule_witness :
    (classify_audio ⟨1, 0, 0, 0⟩).1 = "AI_GENERATED" := by
  rw [(claim1_classifier_rule ⟨1, 0, 0, 0⟩).1 (by norm_num [min_def])]

/-- Claim C2: for every feature vector of finite real values, the confidence
returned by the classifier lies in the closed interval [0, 0.95]. -/
theorem claim2_confidence_bounds (f : FeatureVec) :
    0 ≤ (classify_audio f).2 ∧ (classify_audio f).2 ≤ 0.95 := by
  unfold classify_audio
  split_ifs with h
  · exact ⟨le_min (by linarith) (by norm_num), min_le_right _ _⟩
  · push_neg at h
    exact ⟨le_min (by linarith) (by norm_num), min_le_right _ _⟩

/-- Claim C10: the classifier never reports a confidence below 0.4; whenever
the label is AI_GENERATED the confidence is strictly above 0.6; and a
confidence in the low-confidence explanation band (below 0.70) is reachable,
witnessed by the feature vector (0.25, 0, 0.5, 5000) whose confidence is 0.5. -/
theorem claim10_confidence_floor (f : FeatureVec) :
    0.4 ≤ (classify_audio f).2 ∧
    ((classify_audio f).1 = "AI_GENERATED" → 0.6 < (classify_audio f).2) ∧
    (classify_audio ⟨0.25, 0, 0.5, 5000⟩).2 < 0.7 := by
  refine ⟨?_, ?_, ?_⟩
  · unfold classify_audio
    split_ifs with h
    · exact le_min (by linarith) (by norm_num)
    · push_neg at h
      exact le_min (by linarith) (by norm_num)
  · unfold classify_audio
    split_ifs with h
    · intro _
      exact lt_min h (by norm_num)
    · intro hlab
      simp at hlab
  · norm_num [classify_audio, ai_score, zcr_score, spectral_score, energy_score, min_def]

/-- Witness for C10 at the concrete feature vector (1, 0, 0, 0), which
classifies as AI_GENERATED. -/
theorem claim10_confidence_floor_witness :
    0.6 < (classify_audio ⟨1, 0, 0, 0⟩).2 := by
  refine (claim10_confidence_floor ⟨1, 0, 0, 0⟩).2.1 ?_
  norm_num [classify_audio, ai_score, zcr_score, spectral_score, energy_score, min_def]

/-! ## Energy-variance claim -/

/-- Claim C3: the per-frame energies are indexed by the multiples of the
hop `int(0.010*sr)` whose frame of length `int(0.025*sr)` lies strictly
inside the signal; every collected frame has exactly `frame_length`
samples and its energy is the sum of its squared samples; the reported
`energy_std` is the population standard deviation of that list; and a
signal shorter than one frame yields an empty frame list and
`energy_std = 0` rather than an error. -/
theorem claim3_energy_std (s : List ℝ) (sr : ℕ) (hh : 0 < hopLength sr) :
    (∀ k : ℕ, k < pyRangeCount ((s.length : ℤ) - (frameLength sr : ℕ)) (hopLength sr) ↔
      k * hopLength sr + frameLength sr < s.length) ∧
    energyVariations s sr =
      (List.range (pyRangeCount ((s.length : ℤ) - (frameLength sr : ℕ)) (hopLength sr))).map
        (fun k => (((s.drop (k * hopLength sr)).take (frameLength sr)).map (fun x => x ^ 2)).sum) ∧
    (∀ i ∈ pyRange ((s.length : ℤ) - (frameLength sr : ℕ)) (hopLength sr),
      ((s.drop i).take (frameLength sr)).length = frameLength sr) ∧
    ((energyVariations s sr).isEmpty = false → energy_stdF s sr = npStd (energyVariations s sr)) ∧
    (s.length < frameLength sr → energyVariations s sr = [] ∧ energy_stdF s sr = 0) := by
  have hcount : ∀ k : ℕ,
      k < pyRangeCount ((s.length : ℤ) - (frameLength sr : ℕ)) (hopLength sr) ↔
      k * hopLength sr + frameLength sr < s.length := by
    intro k
    unfold pyRangeCount
    by_cases hs : (0 : ℤ) < (s.length : ℤ) - (frameLength sr : ℕ)
    · rw [if_pos hs, Nat.lt_succ_iff, Nat.le_div_iff_mul_le hh]
      omega
    · rw [if_neg hs]
      constructor
      · omega
      · intro hk
        omega
  have hzero : s.length < frameLength sr → energyVariations s sr = [] := by
    intro hlen
    have : pyRangeCount ((s.length : ℤ) - (frameLength sr : ℕ)) (hopLength sr) = 0 := by
      unfold pyRangeCount
      rw [if_neg (by omega)]
    simp [energyVariations, pyRange, this]
  refine ⟨hcount, ?_, ?_, ?_, ?_⟩
  · simp [energyVariations, pyRange, List.map_map, frameEnergy, Function.comp]
  · intro i hi
    rcases List.mem_map.mp hi with ⟨k, hk, rfl⟩
    have hklt := (hcount k).mp (List.mem_range.mp hk)
    simp only [List.length_take, List.length_drop]
    omega
  · intro hne
    simp [energy_stdF, hne]
  · intro hlen
    refine ⟨hzero hlen, ?_⟩
    simp [energy_stdF, hzero hlen]

/-- Witness for C3: a 3-sample signal at 16 kHz is shorter than one frame
(400 samples), so its energy standard deviation is 0. -/
theorem claim3_energy_std_witness : energy_stdF [(1 : ℝ), 2, 3] 16000 = 0 :=
  ((claim3_energy_std [(1 : ℝ), 2, 3] 16000 (by norm_num [hopLength])).2.2.2.2
    (by norm_num [frameLength])).2

/-! ## Helper lemmas -/

theorem zipWith_replicate_general {α β γ : Type} (f : α → β → γ) (m k : ℕ) (a : α) (b : β) :
    List.zipWith f (List.replicate m a) (List.replicate k b) =
      List.replicate (min m k) (f a b) := by
  induction m generalizing k with
  | zero => simp
  | succ i ih =>
    cases k with
    | zero => simp
    | succ j => simp [List.replicate_succ, ih, Nat.succ_min_succ]

theorem npMean_replicate (k : ℕ) (hk : k ≠ 0) (c : ℝ) :
    npMean (List.replicate k c) = some c := by
  unfold npMean
  rw [if_neg (by simp [List.isEmpty_iff, hk])]
  rw [List.sum_replicate, List.length_replicate, nsmul_eq_mul,
    mul_div_cancel_left₀ _ (Nat.cast_ne_zero.mpr hk)]

theorem getD_zero_of_all_zero (s : List ℝ) (h : ∀ x ∈ s, x = 0) (j : ℕ) :
    s.getD j 0 = 0 := by
  by_cases hj : j < s.length
  · rw [List.getD_eq_getElem?_getD, List.getElem?_eq_getElem hj]
    exact h _ (List.getElem_mem hj)
  · rw [List.getD_eq_getElem?_getD, List.getElem?_eq_none (le_of_not_lt hj)]
    rfl

theorem dft_of_zero (s : List ℝ) (h : ∀ x ∈ s, x = 0) (k : ℕ) : dft s k = 0 := by
  unfold dft
  refine Finset.sum_eq_zero fun j _ => ?_
  rw [getD_zero_of_all_zero s h j]
  simp

theorem magnitudes_of_zero (s : List ℝ) (h : ∀ x ∈ s, x = 0) :
    magnitudes s = List.replicate (s.length / 2) 0 := by
  rw [List.eq_replicate_iff]
  constructor
  · simp [magnitudes]
  · intro b hb
    rcases List.mem_map.mp hb with ⟨k, _, rfl⟩
    rw [dft_of_zero s h k]
    simp

theorem zcrF_of_zero (s : List ℝ) (h : ∀ x ∈ s, x = 0) (h2 : 2 ≤ s.length) :
    zcrF s = some 0 := by
  have hmap : s.map npSign = List.replicate s.length 0 := by
    rw [List.eq_replicate_iff]
    refine ⟨by simp, ?_⟩
    intro b hb
    rcases List.mem_map.mp hb with ⟨x, hx, rfl⟩
    rw [h x hx]
    norm_num [npSign]
  unfold zcrF diffList
  rw [hmap, List.tail_replicate, zipWith_replicate_general, List.map_replicate]
  have hmin : min s.length (s.length - 1) = s.length - 1 := by omega
  rw [hmin]
  have habs : |(0 : ℝ) - 0| = 0 := by norm_num
  simp only [habs]
  exact npMean_replicate _ (by omega) 0

theorem centroid_of_zero (s : List ℝ) (sr : ℕ) (h : ∀ x ∈ s, x = 0) :
    spectral_centroidF s sr = 0 := by
  unfold spectral_centroidF
  have hnum : ((List.range (s.length / 2)).map
      (fun (k : ℕ) => ((k : ℝ) * sr / s.length) * Complex.abs (dft s k))).sum = 0 := by
    refine List.sum_eq_zero fun y hy => ?_
    rcases List.mem_map.mp hy with ⟨k, _, rfl⟩
    rw [dft_of_zero s h k]
    simp
  rw [hnum, zero_div]

theorem flatness_of_zero (s : List ℝ) (h : ∀ x ∈ s, x = 0) (h2 : 2 ≤ s.length) :
    spectral_flatnessF s = some 1 := by
  have hk : s.length / 2 ≠ 0 := by omega
  unfold spectral_flatnessF
  rw [magnitudes_of_zero s h, List.map_replicate, npMean_replicate _ hk,
    npMean_replicate _ hk]
  norm_num [Real.exp_log]

theorem energy_stdF_of_zero (s : List ℝ) (sr : ℕ) (h : ∀ x ∈ s, x = 0) :
    energy_stdF s sr = 0 := by
  have hE : ∀ e ∈ energyVariations s sr, e = 0 := by
    intro e he
    rcases List.mem_map.mp he with ⟨i, _, rfl⟩
    unfold frameEnergy
    refine List.sum_eq_zero fun y hy => ?_
    rcases List.mem_map.mp hy with ⟨x, hx, rfl⟩
    rw [h x (List.mem_of_mem_drop (List.mem_of_mem_take hx))]
    norm_num
  unfold energy_stdF
  split_ifs with he
  · rfl
  · unfold npStd
    have hsum : (energyVariations s sr).sum = 0 := List.sum_eq_zero hE
    have hall : ((energyVariations s sr).map
        (fun x => (x - (energyVariations s sr).sum /
          (energyVariations s sr).length) ^ 2)).sum = 0 := by
      refine List.sum_eq_zero fun y hy => ?_
      rcases List.mem_map.mp hy with ⟨x, hx, rfl⟩
      rw [hE x hx, hsum]
      norm_num
    rw [hall, zero_div, Real.sqrt_zero]

/-! ## Silence handling (C4) -/

/-- Claim C4 counterexample: the non-empty all-zero signal `[0]` refutes the
claim.  Its sign sequence has an empty difference array, so `np.mean` yields
NaN (modelled as `none`) for the zero-crossing rate instead of 0, and the
half-spectrum is empty, so the spectral flatness is NaN rather than finite. -/
theorem claim4_counterexample :
    zcrF [(0 : ℝ)] = none ∧ spectral_flatnessF [(0 : ℝ)] = none :=
  ⟨rfl, rfl⟩

/-- Claim C4 (amended to signals of at least two samples): every all-zero
signal with at least two samples extracts to zcr = 0, spectral centroid 0,
spectral flatness 1 and energy std 0 -- all finite, thanks to the 1e-10
epsilon terms -- and the classifier consumes that vector without error,
returning HUMAN with confidence 0.7. -/
theorem claim4_silence (s : List ℝ) (sr : ℕ) (hlen : 2 ≤ s.length)
    (hz : ∀ x ∈ s, x = 0) :
    extractAudioFeatures s sr = .ok ⟨some 0, 0, some 1, 0⟩ ∧
    classify_audio ⟨0, 0, 1, 0⟩ = ("HUMAN", 0.7) := by
  constructor
  · unfold extractAudioFeatures
    rw [if_neg (by omega)]
    rw [zcrF_of_zero s hz hlen, centroid_of_zero s sr hz,
      flatness_of_zero s hz hlen, energy_stdF_of_zero s sr hz]
  · norm_num [classify_audio, ai_score, zcr_score, spectral_score, energy_score, min_def]

/-- Witness for C4 at the two-sample all-zero signal. -/
theorem claim4_silence_witness :
    extractAudioFeatures [(0 : ℝ), 0] 16000 = .ok ⟨some 0, 0, some 1, 0⟩ :=
  (claim4_silence [(0 : ℝ), 0] 16000 (by simp) (by intro x hx; simpa using hx)).1

/-! ## Empty-signal error (C6) -/

/-- Claim C6 counterexample: on the zero-sample decoded buffer the pipeline
does not fail with the distinct empty-signal error kind; the error it
raises is the generic ValueError of `np.fft.fft` on zero data points
(no EmptySignalError class exists anywhere in the source). -/
theorem claim6_counterexample :
    processDecodedSignal [] ≠ Except.error PipeError.emptySignal := by
  have hred : processDecodedSignal [] = Except.error PipeError.fftZeroPoints := rfl
  rw [hred]
  simp

/-- Claim C6 (amended): on a zero-sample decoded buffer the pipeline does
fail -- `np.fft.fft` raises on zero data points inside feature extraction
and the exception is re-raised -- but as that generic error, not as a
distinct empty-signal error kind. -/
theorem claim6_empty_signal (s : List ℝ) (h : s.isEmpty = true) :
    processDecodedSignal s = Except.error PipeError.fftZeroPoints := by
  unfold processDecodedSignal extractAudioFeatures
  rw [if_pos (by simpa [List.isEmpty_iff_length_eq_zero] using h)]

/-- Witness for C6 at the empty signal. -/
theorem claim6_empty_signal_witness :
    processDecodedSignal ([] : List ℝ) = Except.error PipeError.fftZeroPoints :=
  claim6_empty_signal [] rfl

/-! ## NaN surfacing (C7) -/

/-- Claim C7 counterexample: the one-sample signal `[0]` makes the
extractor produce NaN (modelled as `none`) for both the zero-crossing rate
and the spectral flatness, yet extraction returns the NaN-containing
feature vector with `.ok` instead of failing with an error. -/
theorem claim7_counterexample :
    extractAudioFeatures [(0 : ℝ)] 16000 = Except.ok ⟨none, 0, none, 0⟩ := by
  unfold extractAudioFeatures
  rw [if_neg (by simp)]
  have h2 : spectral_centroidF [(0 : ℝ)] 16000 = 0 :=
    centroid_of_zero _ 16000 (by intro x hx; simpa using hx)
  have h4 : energy_stdF [(0 : ℝ)] 16000 = 0 :=
    energy_stdF_of_zero _ 16000 (by intro x hx; simpa using hx)
  have h1 : zcrF [(0 : ℝ)] = none := rfl
  have h3 : spectral_flatnessF [(0 : ℝ)] = none := rfl
  rw [h1, h2, h3, h4]

/-- Claim C7 (amended): the extractor has no NaN check at all.  Every
non-empty signal extracts successfully, the possibly-NaN features being
returned to the caller as they are; in particular every one-sample signal
has a NaN zero-crossing rate that is passed on rather than surfaced as an
error (the try/except of lines 48-87 only re-raises real exceptions). -/
theorem claim7_nan_passthrough (s : List ℝ) (sr : ℕ) (h : s ≠ []) :
    extractAudioFeatures s sr =
      Except.ok ⟨zcrF s, spectral_centroidF s sr, spectral_flatnessF s,
        energy_stdF s sr⟩ ∧
    (s.length = 1 → zcrF s = none) := by
  constructor
  · unfold extractAudioFeatures
    rw [if_neg (by simpa [List.length_eq_zero] using h)]
  · intro h1
    cases s with
    | nil => exact absurd rfl h
    | cons a t =>
      cases t with
      | nil => rfl
      | cons b t2 => simp at h1

/-- Witness for C7 at the one-sample signal `[0]`: its NaN zero-crossing
rate is returned, not raised. -/
theorem claim7_nan_passthrough_witness : zcrF [(0 : ℝ)] = none ∧
    extractAudioFeatures [(12 : ℝ)] 16000 =
      Except.ok ⟨zcrF [(12 : ℝ)], spectral_centroidF [(12 : ℝ)] 16000,
        spectral_flatnessF [(12 : ℝ)], energy_stdF [(12 : ℝ)] 16000⟩ :=
  ⟨(claim7_nan_passthrough [(0 : ℝ)] 16000 (by simp)).2 (by simp),
    (claim7_nan_passthrough [(12 : ℝ)] 16000 (by simp)).1⟩

/-! ## Downmix (C5) -/

/-- Claim C5: for every decoded buffer with more than one channel the
pipeline downmixes to mono by the arithmetic mean across all channels at
each sample index (not by keeping the first channel); in particular a
2-channel buffer with constant channels c1 and c2 becomes the constant
signal (c1+c2)/2. -/
theorem claim5_downmix (chs : List (List ℝ)) (n : ℕ) (h1 : 1 < chs.length)
    (h2 : ∀ ch ∈ chs, ch.length = n) :
    pipelineMonoSignal chs =
      (List.range n).map
        (fun j => (chs.map (fun ch => ch.getD j 0)).sum / chs.length) ∧
    (∀ (c1 c2 : ℝ) (m : ℕ),
      pipelineMonoSignal [List.replicate m c1, List.replicate m c2] =
        List.replicate m ((c1 + c2) / 2)) := by
  constructor
  · cases chs with
    | nil => simp at h1
    | cons a t =>
      have ha : a.length = n := h2 a (List.mem_cons_self a t)
      simp only [pipelineMonoSignal, convertToMono, if_pos h1, List.headD_cons]
      simp [torchMeanDim0, ha]
  · intro c1 c2 m
    have hlen : (1 : ℕ) <
        ([List.replicate m c1, List.replicate m c2] : List (List ℝ)).length := by simp
    simp only [pipelineMonoSignal, convertToMono, if_pos hlen, List.headD_cons]
    rw [List.eq_replicate_iff]
    constructor
    · simp [torchMeanDim0]
    · intro b hb
      simp only [torchMeanDim0, List.headD_cons, List.length_replicate] at hb
      rcases List.mem_map.mp hb with ⟨j, hj, rfl⟩
      have hjm : j < m := List.mem_range.mp hj
      simp [List.getD_eq_getElem?_getD, List.getElem?_replicate_of_lt hjm]

/-- Witness for C5 on the concrete 2-channel buffer [[1,3],[2,4]]. -/
theorem claim5_downmix_witness :
    pipelineMonoSignal [[(1 : ℝ), 3], [2, 4]] = [3 / 2, 7 / 2] := by
  rw [(claim5_downmix [[(1 : ℝ), 3], [2, 4]] 2 (by norm_num)
    (by intro ch hch; simp at hch; rcases hch with rfl | rfl <;> rfl)).1]
  norm_num [List.range_succ]

/-! ## Declared-format validation (C8) -/

/-- Claim C8: with a valid API key, a request is accepted for decoding
exactly when the lowercased declared format is one of the six supported
strings; any other declared format is answered with a 400 error without the
decode step being invoked (the result is 400 for every possible decode
function), while an accepted format proceeds to the decode call whose
outcome determines the response. -/
theorem claim8_format_validation (apiKey : Option String) (fmt : String)
    (decodeRun : Unit → Except PipeError (String × ℝ))
    (hk : verify_api_key apiKey = true) :
    (supported_formats.contains (strLower fmt) = true ↔
      (strLower fmt = "mp3" ∨ strLower fmt = "wav" ∨ strLower fmt = "m4a" ∨
        strLower fmt = "ogg" ∨ strLower fmt = "flac" ∨ strLower fmt = "aac")) ∧
    (supported_formats.contains (strLower fmt) = false →
      ∀ d2 : Unit → Except PipeError (String × ℝ),
        detect_spoof apiKey fmt d2 = DetectOutcome.errorResponse 400) ∧
    (supported_formats.contains (strLower fmt) = true →
      detect_spoof apiKey fmt decodeRun ≠ DetectOutcome.errorResponse 400 ∧
      detect_spoof apiKey fmt decodeRun =
        (match decodeRun () with
          | .ok (classification, confidence) =>
              DetectOutcome.success classification confidence
          | .error _ => DetectOutcome.errorResponse 500)) := by
  refine ⟨?_, ?_, ?_⟩
  · simp [supported_formats, List.contains, List.elem_eq_mem]
  · intro hf d2
    unfold detect_spoof
    rw [hk, hf]
    rfl
  · intro hf
    unfold detect_spoof
    rw [hk, hf]
    constructor
    · cases hd : decodeRun () with
      | ok p =>
        cases p with
        | mk c conf => simp [hd]
      | error e => simp [hd]
    · rfl

/-- Witness for C8: the uppercase variant MP3 with the configured key is
accepted and reaches the decode call, whose failure yields a 500. -/
theorem claim8_format_validation_witness :
    detect_spoof (some VALID_API_KEY) "MP3"
      (fun _ => Except.error PipeError.fftZeroPoints) =
      DetectOutcome.errorResponse 500 := by
  have h := (claim8_format_validation (some VALID_API_KEY) "MP3"
    (fun _ => Except.error PipeError.fftZeroPoints) (by decide)).2.2 (by decide)
  exact h.2

/-! ## Temporary-file cleanup (C9) -/

/-- Claim C9 is refuted by the write failure point: when
`temp_file.write(audio_bytes)` raises after `NamedTemporaryFile(delete=False)`
has already created the file, the local `temp_path` is not yet bound, so the
except-handler of lines 188-189 skips the unlink and the function exits with
the temporary file still on disk. -/
theorem claim9_write_failure_leak :
    (processTempFile .writeFail).raised = true ∧
    (processTempFile .writeFail).tempFileExists = true ∧
    (∀ fp : FailPoint, fp ≠ .writeFail → (processTempFile fp).tempFileExists = false) := by
  refine ⟨rfl, rfl, ?_⟩
  intro fp hfp
  cases fp <;> first | rfl | exact absurd rfl hfp

/-- Witness for C9: the load failure point does clean the file up. -/
theorem claim9_write_failure_leak_witness :
    (processTempFile .loadFail).tempFileExists = false :=
  claim9_write_failure_leak.2.2 .loadFail (by decide)
